import Mathlib

/-!
Shallow embedding of the flume-water-prometheus-exporter sources
(main.go, config.go, flume-api-client.go, rate-limiter.go) and proofs
about the behaviour its specification describes.

Conventions of the embedding:
* `time.Time` values are abstracted as calendar stamps `DT` (a day index
  plus hour and minute within the day, all in one fixed location), or as
  `Int` nanoseconds since an epoch where only durations matter.
* `time.Duration` is `Int` nanoseconds, as in Go.
* Network effects are made explicit: each operation takes the decoded
  upstream response as a parameter and returns the new client state, the
  list of outbound calls it performed, and a Go-style result.
-/

/-- Nanoseconds per second, matching Go's time.Second. -/
def nsPerSecond : Int := 1000000000

/-- Nanoseconds per minute, matching Go's time.Minute. -/
def nsPerMinute : Int := 60 * nsPerSecond

/-- Nanoseconds per hour, matching Go's time.Hour. -/
def nsPerHour : Int := 60 * nsPerMinute

/-- A calendar stamp in a fixed location: `day` is the calendar-day index
(the result of truncating a time.Time to Y/M/D), `hour` and `minute` the
clock reading within that day. -/
structure DT where
  day : Nat
  hour : Nat
  minute : Nat
deriving DecidableEq, Repr

/-- Chronological order on calendar stamps (lexicographic). -/
def DT.leB (a b : DT) : Bool :=
  a.day < b.day ||
    (a.day = b.day && (a.hour < b.hour || (a.hour = b.hour && a.minute ≤ b.minute)))

/-- A list of stamps is non-decreasing when adjacent elements are ordered. -/
def nonDecreasing : List DT → Bool
  | [] => true
  | [_] => true
  | a :: b :: rest => DT.leB a b && nonDecreasing (b :: rest)

/-- One call to shouldCollectDailyTotalWaterUsage (main.go): given the
stored lastDailyTotalCollection (none encodes the zero time.Time) and the
current clock reading, returns the decision and the updated stored value. -/
def collectStep : Option DT → DT → Bool × Option DT
  | none, now => (true, some now)
  | some last, now =>
    if now.day ≠ last.day then (true, some now)
    else if 5 ≤ now.hour ∧ now.hour ≤ 7 then
      if last.hour < 12 then (false, some last) else (true, some now)
    else if 17 ≤ now.hour ∧ now.hour ≤ 19 then
      if 12 ≤ last.hour then (false, some last) else (true, some now)
    else (false, some last)

/-- Runs shouldCollectDailyTotalWaterUsage over a sequence of ticks,
recording each tick's clock reading and decision. -/
def collectRun : Option DT → List DT → List (DT × Bool)
  | _, [] => []
  | s, x :: rest =>
    let step := collectStep s x
    (x, step.1) :: collectRun step.2 rest

/-- Number of ticks falling on calendar day `d` whose decision was true. -/
def countTrues (d : Nat) (l : List (DT × Bool)) : Nat :=
  (l.filter (fun p => p.1.day = d && p.2)).length

/-- Trims the Unicode whitespace Go's strings.TrimSpace removes for the
character set relevant to device-id lists. -/
def goIsSpace (c : Char) : Bool :=
  c = ' ' || c = '\t' || c = '\n' || c = '\x0b' || c = '\x0c' || c = '\r' ||
    c = '\x85' || c = '\xa0'

/-- Go's strings.TrimSpace on the characters of goIsSpace. -/
def goTrimSpace (s : String) : String :=
  (s.toList.dropWhile goIsSpace).reverse.dropWhile goIsSpace |>.reverse |> String.mk

/-- Splitting a character list at every comma; the empty input yields one
empty field, as strings.Split does. -/
def splitAtCommas : List Char → List (List Char)
  | [] => [[]]
  | c :: rest =>
    match splitAtCommas rest with
    | [] => if c = ',' then [[], []] else [[c]]
    | h :: t => if c = ',' then [] :: h :: t else (c :: h) :: t

/-- Go's strings.Split(s, comma). -/
def goSplitCommas (s : String) : List String :=
  (splitAtCommas s.toList).map String.mk

/-- shouldProcessDevice (main.go): empty DeviceIDs configuration processes
every device; otherwise split on commas and compare each trimmed entry. -/
def shouldProcessDevice (deviceIDs : String) (deviceID : String) : Bool :=
  if deviceIDs = "" then true
  else (goSplitCommas deviceIDs).any (fun id => goTrimSpace id = deviceID)

/-- The devices the per-tick loop in CollectMetrics keeps (main.go iterates
the upstream device list and skips those failing shouldProcessDevice). -/
def processedDevices (deviceIDs : String) (devices : List String) : List String :=
  devices.filter (shouldProcessDevice deviceIDs)

/-- Go-style errors as the client produces them (flume-api-client.go);
wrapping with the %w verb is represented structurally. -/
inductive GoErr where
  | msg : String → GoErr
  | httpStatus : String → Nat → GoErr
  | rateLimited : String → GoErr
  | ensureTokenFailed : GoErr → GoErr
  | retryExhausted : Nat → GoErr → GoErr
deriving DecidableEq, Repr

/-- True when the first error is, or transitively wraps (%w), the second. -/
def GoErr.wraps : GoErr → GoErr → Bool
  | e, target =>
    (e == target) ||
      match e with
      | .ensureTokenFailed inner => inner.wraps target
      | .retryExhausted _ inner => inner.wraps target
      | _ => false

/-- The token-bearing part of a FlumeClient plus whether the persisted
token file currently exists; times are Int nanoseconds, the zero
time.Time is 0. -/
structure ClientState where
  accessToken : String
  refreshToken : String
  tokenExpiry : Int
  tokenFileExists : Bool
deriving DecidableEq, Repr

/-- isTokenExpired (flume-api-client.go): empty token counts as expired;
otherwise now + 5 minutes is strictly after the stored expiry. -/
def isTokenExpired (now : Int) (st : ClientState) : Bool :=
  st.accessToken = "" || st.tokenExpiry < now + 5 * nsPerMinute

/-- isTokenExpiringSoon (flume-api-client.go): empty token counts as
expiring; otherwise now + 1 hour is strictly after the stored expiry. -/
def isTokenExpiringSoon (now : Int) (st : ClientState) : Bool :=
  st.accessToken = "" || st.tokenExpiry < now + nsPerHour

/-- needsAuthentication (flume-api-client.go). -/
def needsAuthentication (now : Int) (st : ClientState) : Bool :=
  if st.accessToken = "" then true
  else if isTokenExpired now st then true
  else if isTokenExpiringSoon now st && st.refreshToken ≠ "" then true
  else false

/-- The token fields of a successful oauth/token response (Data[0]). -/
structure TokenUpd where
  access : String
  refresh : String
  expiresIn : Int
deriving DecidableEq, Repr

/-- The outbound oauth calls ensureValidToken can perform. -/
inductive NetCall where
  | refreshCall
  | authCall
deriving DecidableEq, Repr

/-- clearTokens (flume-api-client.go): wipes the in-memory tokens and
removes the token file. -/
def clearTokens (_st : ClientState) : ClientState :=
  { accessToken := "", refreshToken := "", tokenExpiry := 0,
    tokenFileExists := false }

/-- Authenticate (flume-api-client.go) with the upstream outcome as a
parameter: request/decode/logical failures leave the state alone; a
successful response installs the tokens, rejects an empty access token
before persisting, and otherwise saves the token file. -/
def authenticateGo (now : Int) (st : ClientState)
    (outcome : Except GoErr TokenUpd) : ClientState × Except GoErr Unit :=
  match outcome with
  | .error e => (st, .error e)
  | .ok u =>
    let st1 := { st with accessToken := u.access, refreshToken := u.refresh,
                         tokenExpiry := now + u.expiresIn * nsPerSecond }
    if u.access = "" then
      (st1, .error (.msg "authentication succeeded but returned empty access token"))
    else
      ({ st1 with tokenFileExists := true }, .ok ())

/-- refreshAccessToken (flume-api-client.go) with the upstream outcome as
a parameter: keeps the old refresh token when the response carries none,
then persists. -/
def refreshAccessTokenGo (now : Int) (st : ClientState)
    (outcome : Except GoErr TokenUpd) : ClientState × Except GoErr Unit :=
  match outcome with
  | .error e => (st, .error e)
  | .ok u =>
    ({ st with accessToken := u.access,
               refreshToken := if u.refresh ≠ "" then u.refresh else st.refreshToken,
               tokenExpiry := now + u.expiresIn * nsPerSecond,
               tokenFileExists := true }, .ok ())

/-- ensureValidToken (flume-api-client.go): early-out when no
authentication is needed; refresh only when a refresh token exists and
the token is expiring soon but not yet expired, clearing state and
falling back to full authentication when the refresh fails; otherwise
full authentication directly. Also reports the oauth calls performed. -/
def ensureValidToken (now : Int) (st : ClientState)
    (refreshOutcome authOutcome : Except GoErr TokenUpd) :
    ClientState × List NetCall × Except GoErr Unit :=
  if needsAuthentication now st = false then (st, [], .ok ())
  else if st.refreshToken ≠ "" ∧ isTokenExpiringSoon now st = true ∧
      isTokenExpired now st = false then
    match refreshAccessTokenGo now st refreshOutcome with
    | (st1, .ok ()) => (st1, [.refreshCall], .ok ())
    | (_, .error _) =>
      let st2 := clearTokens st
      let a := authenticateGo now st2 authOutcome
      (a.1, [.refreshCall, .authCall], a.2)
  else
    let a := authenticateGo now st authOutcome
    (a.1, [.authCall], a.2)

/-- GetAuthenticationStatus's has_access_token field. -/
def hasAccessToken (st : ClientState) : Bool :=
  st.accessToken ≠ ""

/-- A Flume device as decoded from the devices endpoint. -/
structure Device where
  id : String
  type : Nat
  locationName : String
deriving DecidableEq, Repr

/-- GetDevices (flume-api-client.go) with the decoded upstream response as
parameters: rate-limiter wait, token check, then 429 check, 200 check,
and the decoded device list. -/
def GetDevices (now : Int) (st : ClientState)
    (refreshOutcome authOutcome : Except GoErr TokenUpd)
    (status : Nat) (body : List Device) :
    ClientState × Except GoErr (List Device) :=
  match ensureValidToken now st refreshOutcome authOutcome with
  | (st1, _, .error e) => (st1, .error (.ensureTokenFailed e))
  | (st1, _, .ok ()) =>
    if status = 429 then (st1, .error (.rateLimited "devices"))
    else if status ≠ 200 then (st1, .error (.httpStatus "devices" status))
    else (st1, .ok body)

/-- One point of a water_usage series. -/
structure UsageEntry where
  datetime : String
  value : Float
deriving Repr

/-- One entry of a query response's data array. -/
structure QueryDataEntry where
  waterUsage : List UsageEntry
  requestId : String
  bucket : String
deriving Repr

/-- The envelope of the query endpoint. -/
structure QueryResponse where
  success : Bool
  code : Nat
  message : String
  data : List QueryDataEntry
  count : Nat
deriving Repr

/-- QueryWaterUsage sets the bucket of the first data entry by hand. -/
def setHeadBucket (bucket : String) : List QueryDataEntry → List QueryDataEntry
  | [] => []
  | h :: t => { h with bucket := bucket } :: t

/-- QueryWaterUsage (flume-api-client.go): wait, token check, 429 and 200
checks, then the decoded envelope with the head bucket filled in. -/
def QueryWaterUsage (now : Int) (st : ClientState)
    (refreshOutcome authOutcome : Except GoErr TokenUpd)
    (bucket : String) (status : Nat) (body : QueryResponse) :
    ClientState × Except GoErr QueryResponse :=
  match ensureValidToken now st refreshOutcome authOutcome with
  | (st1, _, .error e) => (st1, .error (.ensureTokenFailed e))
  | (st1, _, .ok ()) =>
    if status = 429 then (st1, .error (.rateLimited "water_usage"))
    else if status ≠ 200 then (st1, .error (.httpStatus "query" status))
    else (st1, .ok { body with data := setHeadBucket bucket body.data })

/-- One day of a daily_total_water_usage series. -/
structure DailyTotalEntry where
  datetime : String
  value : Float
deriving Repr

/-- The envelope of the daily-total query. -/
structure DailyTotalWaterUsageResponse where
  success : Bool
  code : Nat
  message : String
  data : List (List DailyTotalEntry)
  count : Nat
deriving Repr

/-- QueryDailyTotalWaterUsage (flume-api-client.go): wait, token check,
429 and 200 checks, then the decoded envelope. -/
def QueryDailyTotalWaterUsage (now : Int) (st : ClientState)
    (refreshOutcome authOutcome : Except GoErr TokenUpd)
    (status : Nat) (body : DailyTotalWaterUsageResponse) :
    ClientState × Except GoErr DailyTotalWaterUsageResponse :=
  match ensureValidToken now st refreshOutcome authOutcome with
  | (st1, _, .error e) => (st1, .error (.ensureTokenFailed e))
  | (st1, _, .ok ()) =>
    if status = 429 then (st1, .error (.rateLimited "daily_total_water_usage"))
    else if status ≠ 200 then (st1, .error (.httpStatus "query" status))
    else (st1, .ok body)

/-- Resolution of the account identifier inside GetCurrentFlowRate: the
id found in the /me body if any, else the JWT payload's user_id when
positive, else an error; an id of zero is rejected. -/
def resolveUserID (fromMe : Option Int) (fromToken : Int) : Except GoErr Int :=
  match fromMe with
  | some uid =>
    if uid = 0 then .error (.msg "invalid user ID (0) extracted from /me response")
    else .ok uid
  | none =>
    if 0 < fromToken then .ok fromToken
    else .error (.msg "could not extract user ID from /me response or JWT token")

/-- One entry of the active-flow endpoint's data array. -/
structure FlowEntry where
  active : Bool
  gpm : Float
  datetime : String
deriving Repr

/-- The envelope of the active-flow endpoint. -/
structure FlowEnvelope where
  success : Bool
  code : Nat
  message : String
  data : List FlowEntry
deriving Repr

/-- The value GetCurrentFlowRate returns. -/
structure FlowRateResponse where
  value : Float
  units : String
deriving Repr

/-- GetCurrentFlowRate (flume-api-client.go): wait, token check, a /me
request resolving the user id (GET /me has no 429 check in the source),
then the active-flow request with 429 and 200 checks, envelope success
check, and an empty data array mapped to a zero flow rate. -/
def GetCurrentFlowRate (now : Int) (st : ClientState)
    (refreshOutcome authOutcome : Except GoErr TokenUpd)
    (meStatus : Nat) (fromMe : Option Int) (fromToken : Int)
    (flowStatus : Nat) (env : FlowEnvelope) :
    ClientState × Except GoErr FlowRateResponse :=
  match ensureValidToken now st refreshOutcome authOutcome with
  | (st1, _, .error e) => (st1, .error (.ensureTokenFailed e))
  | (st1, _, .ok ()) =>
    if meStatus ≠ 200 then (st1, .error (.httpStatus "me" meStatus))
    else
      match resolveUserID fromMe fromToken with
      | .error e => (st1, .error e)
      | .ok _ =>
        if flowStatus = 429 then (st1, .error (.rateLimited "flow_rate"))
        else if flowStatus ≠ 200 then (st1, .error (.httpStatus "flow_rate" flowStatus))
        else if env.success = false then
          (st1, .error (.msg "flow rate response indicates failure"))
        else
          match env.data with
          | [] => (st1, .ok { value := 0.0, units := "gallons_per_minute" })
          | entry :: _ => (st1, .ok { value := entry.gpm, units := "gallons_per_minute" })

/-- ValidateAuthentication (flume-api-client.go): skips the network when
the token looks valid; on a 401 response clears tokens and removes the
token file. -/
def ValidateAuthentication (now : Int) (st : ClientState) (status : Nat) :
    ClientState × Except GoErr Unit :=
  if st.accessToken = "" then (st, .error (.msg "no access token available"))
  else if isTokenExpired now st = false ∧ st.tokenExpiry ≠ 0 then (st, .ok ())
  else if status = 401 then
    (clearTokens st, .error (.msg "authentication token is invalid"))
  else if status ≠ 200 then (st, .error (.httpStatus "validation" status))
  else (st, .ok ())

/-- Observable ordering events of one operation: the rate-limiter wait and
each outbound HTTP request, in program order. -/
inductive Ev where
  | wait
  | http (endpoint : String)
deriving DecidableEq, Repr

/-- The oauth/token requests issued by ensureValidToken, as trace events. -/
def oauthCallsEv (calls : List NetCall) : List Ev :=
  calls.map (fun _ => .http "oauth/token")

/-- Event trace of GetDevices: one Wait, the oauth calls the token check
performed, then the devices request when the token check succeeded. -/
def GetDevicesTrace (now : Int) (st : ClientState)
    (refreshOutcome authOutcome : Except GoErr TokenUpd) : List Ev :=
  let r := ensureValidToken now st refreshOutcome authOutcome
  .wait :: oauthCallsEv r.2.1 ++
    (match r.2.2 with
     | .ok _ => [Ev.http "me/devices"]
     | .error _ => [])

/-- Event trace of QueryWaterUsage. -/
def QueryWaterUsageTrace (now : Int) (st : ClientState)
    (refreshOutcome authOutcome : Except GoErr TokenUpd) : List Ev :=
  let r := ensureValidToken now st refreshOutcome authOutcome
  .wait :: oauthCallsEv r.2.1 ++
    (match r.2.2 with
     | .ok _ => [Ev.http "query"]
     | .error _ => [])

/-- Event trace of QueryDailyTotalWaterUsage. -/
def QueryDailyTotalWaterUsageTrace (now : Int) (st : ClientState)
    (refreshOutcome authOutcome : Except GoErr TokenUpd) : List Ev :=
  let r := ensureValidToken now st refreshOutcome authOutcome
  .wait :: oauthCallsEv r.2.1 ++
    (match r.2.2 with
     | .ok _ => [Ev.http "query"]
     | .error _ => [])

/-- Event trace of GetCurrentFlowRate: one Wait, the oauth calls of the
token check, the /me request when the check succeeded, then the
active-flow request when the /me lookup produced a user id. -/
def GetCurrentFlowRateTrace (now : Int) (st : ClientState)
    (refreshOutcome authOutcome : Except GoErr TokenUpd)
    (meStatus : Nat) (fromMe : Option Int) (fromToken : Int) : List Ev :=
  let r := ensureValidToken now st refreshOutcome authOutcome
  .wait :: oauthCallsEv r.2.1 ++
    (match r.2.2 with
     | .error _ => []
     | .ok _ =>
       Ev.http "me" ::
         (if meStatus = 200 then
            match resolveUserID fromMe fromToken with
            | .ok _ => [Ev.http "query/active"]
            | .error _ => []
          else []))

/-- True when every http event of the trace directly follows a wait
event; the first parameter is the preceding event, none at the start. -/
def httpImmediatelyAfterWait : Option Ev → List Ev → Bool
  | _, [] => true
  | prev, e :: rest =>
    (match e with
     | .http _ => prev == some .wait
     | .wait => true) && httpImmediatelyAfterWait (some e) rest

/-- The loop body of AuthenticateWithRetry (flume-api-client.go) over the
remaining attempt numbers: a successful Authenticate stops; a failure on
a non-final attempt clears tokens and sleeps attempt * 5 seconds; after
the final failure the loop exits and wraps the last error. Returns the
attempts performed, the sleeps performed, and the result. -/
def authRetryLoop (oracle : Nat → Option GoErr) (maxRetries : Nat)
    (lastErr : GoErr) : List Nat → List Nat × List Int × Except GoErr Unit
  | [] => ([], [], .error (.retryExhausted maxRetries lastErr))
  | attempt :: rest =>
    match oracle attempt with
    | none => ([attempt], [], .ok ())
    | some e =>
      if attempt < maxRetries then
        let r := authRetryLoop oracle maxRetries e rest
        (attempt :: r.1, ((attempt : Int) * 5 * nsPerSecond) :: r.2.1, r.2.2)
      else
        let r := authRetryLoop oracle maxRetries e rest
        (attempt :: r.1, r.2.1, r.2.2)

/-- AuthenticateWithRetry (flume-api-client.go): attempts 1..maxRetries in
order; the Authenticate outcome of attempt k is oracle k (none meaning
success). -/
def AuthenticateWithRetry (oracle : Nat → Option GoErr) (maxRetries : Nat) :
    List Nat × List Int × Except GoErr Unit :=
  authRetryLoop oracle maxRetries (.msg "nil error") (List.range' 1 maxRetries)

/-- An Authenticate oracle that fails every attempt, with a distinct
error on the first attempt. -/
def failTwiceOracle : Nat → Option GoErr :=
  fun k => if k = 1 then some (.msg "bad gateway") else some (.msg "timeout")

/-- calculateOptimalScrapeInterval (config.go): 30 seconds per request of
a tick (one devices call plus one per device), clamped to 2..10 minutes. -/
def calculateOptimalScrapeInterval (deviceCount : Nat) : Int :=
  let baseRequestsPerScrape : Int := 1 + (deviceCount : Int)
  let optimalInterval := 30 * baseRequestsPerScrape * nsPerSecond
  if optimalInterval < 2 * nsPerMinute then 2 * nsPerMinute
  else if 10 * nsPerMinute < optimalInterval then 10 * nsPerMinute
  else optimalInterval

/-- GetScrapeInterval (config.go): the configured ScrapeInterval wins
whenever it differs from the 30-second default, else the computed one. -/
def GetScrapeInterval (scrapeInterval : Int) (deviceCount : Nat) : Int :=
  if scrapeInterval ≠ 30 * nsPerSecond then scrapeInterval
  else calculateOptimalScrapeInterval deviceCount

/-- LoadConfig's ScrapeInterval field (config.go): the user-supplied
interval when one was given, else the 30-second default. -/
def configScrapeInterval (userSupplied : Option Int) : Int :=
  match userSupplied with
  | some d => d
  | none => 30 * nsPerSecond

/-- Per-day budget of remaining daily-total collections given the stored
last-collection stamp: two while the stored stamp is on an earlier day,
one after a before-noon collection that day, none otherwise. -/
def dayBudget (d : Nat) (t0 : DT) : Nat :=
  if t0.day < d then 2
  else if t0.day = d ∧ t0.hour < 12 then 1
  else 0

/-- A fresh client state whose token expires well past the one-hour
window, used as a concrete input. -/
def freshState : ClientState :=
  { accessToken := "tok", refreshToken := "refr",
    tokenExpiry := 2 * nsPerHour, tokenFileExists := true }

/-- A failed oauth outcome, used as a concrete input. -/
def downOutcome : Except GoErr TokenUpd :=
  .error (.msg "connection refused")

/-- A state whose token is already past the five-minute hard-expiry
buffer (and therefore also expiring soon), with a refresh token. -/
def expiredState : ClientState :=
  { accessToken := "tok", refreshToken := "refr", tokenExpiry := 0,
    tokenFileExists := true }

/-- A state whose token is inside the one-hour expiring-soon window but
not yet past the five-minute hard-expiry buffer. -/
def staleState : ClientState :=
  { accessToken := "tok", refreshToken := "refr",
    tokenExpiry := 30 * nsPerMinute, tokenFileExists := true }

/-- A successful oauth outcome, used as a concrete input. -/
def okOutcome : Except GoErr TokenUpd :=
  .ok { access := "newA", refresh := "newR", expiresIn := 3600 }

/-- A successful active-flow envelope carrying no data points. -/
def emptyFlowEnvelope : FlowEnvelope :=
  { success := true, code := 200, message := "", data := [] }

/-- The per-attempt errors produced by failTwiceOracle. -/
def failTwiceErrs : Nat → GoErr :=
  fun k => if k = 1 then .msg "bad gateway" else .msg "timeout"

/-- C1 -- shouldCollectDailyTotalWaterUsage returns true exactly when the
stored stamp is unset, the calendar day changed, the clock is in the
05:00-07:59 window with the last collection at or after noon, or the clock
is in the 17:00-19:59 window with the last collection before noon; and the
scenario 06:30, 06:45, 12:00, 18:15 on one day collects exactly at 06:30
and 18:15. -/
theorem C1_daily_collection_decision :
    (∀ now : DT, (collectStep none now).1 = true) ∧
    (∀ last now : DT,
      (collectStep (some last) now).1 = true ↔
        (now.day ≠ last.day ∨
         (5 ≤ now.hour ∧ now.hour ≤ 7 ∧ 12 ≤ last.hour) ∨
         (17 ≤ now.hour ∧ now.hour ≤ 19 ∧ last.hour < 12))) ∧
    (collectRun none [⟨3, 6, 30⟩, ⟨3, 6, 45⟩, ⟨3, 12, 0⟩, ⟨3, 18, 15⟩]).map
        Prod.snd = [true, false, false, true] := by
  refine ⟨fun now => rfl, fun last now => ?_, by decide⟩
  simp only [collectStep]
  by_cases hday : now.day = last.day
  · simp only [hday, ne_eq, not_true_eq_false, if_false]
    by_cases hm : 5 ≤ now.hour ∧ now.hour ≤ 7
    · by_cases hlt : last.hour < 12
      · simp [hm, hlt]; omega
      · simp [hm, hlt]; omega
    · by_cases he : 17 ≤ now.hour ∧ now.hour ≤ 19
      · by_cases hge : 12 ≤ last.hour
        · simp [hm, he, hge]
        · simp [hm, he, hge]; omega
      · simp [hm, he]; omega
  · simp [hday]

/-- C7 -- shouldProcessDevice accepts every id under an empty allow-list
and otherwise exactly the ids appearing among the comma-separated entries
after trimming; with allow-list "A, B" and devices [A, B, C] exactly A and
B survive. -/
theorem C7_device_filter :
    (∀ id : String, shouldProcessDevice "" id = true) ∧
    (∀ (cfg id : String), cfg ≠ "" →
      (shouldProcessDevice cfg id = true ↔
        id ∈ (goSplitCommas cfg).map goTrimSpace)) ∧
    processedDevices "A, B" ["A", "B", "C"] = ["A", "B"] := by
  refine ⟨fun id => rfl, fun cfg id hne => ?_, by decide⟩
  simp [shouldProcessDevice, hne, List.any_eq_true, List.mem_map]

/-- With a non-empty token expiring more than an hour out, none of the
expiry predicates fire. -/
theorem needsAuthentication_fresh (now : Int) (st : ClientState)
    (htok : st.accessToken ≠ "") (hexp : now + nsPerHour < st.tokenExpiry) :
    needsAuthentication now st = false := by
  simp only [nsPerHour, nsPerMinute, nsPerSecond] at hexp
  have hexpired : isTokenExpired now st = false := by
    simp [isTokenExpired, htok, nsPerMinute, nsPerSecond]
    omega
  have hsoon : isTokenExpiringSoon now st = false := by
    simp [isTokenExpiringSoon, htok, nsPerHour, nsPerMinute, nsPerSecond]
    omega
  simp [needsAuthentication, htok, hexpired, hsoon]

/-- ensureValidToken early-outs on a fresh token. -/
theorem ensureValidToken_fresh (now : Int) (st : ClientState)
    (refreshOutcome authOutcome : Except GoErr TokenUpd)
    (htok : st.accessToken ≠ "") (hexp : now + nsPerHour < st.tokenExpiry) :
    ensureValidToken now st refreshOutcome authOutcome = (st, [], .ok ()) := by
  simp [ensureValidToken, needsAuthentication_fresh now st htok hexp]

/-- C4 -- with a non-empty access token whose expiry lies more than the
one-hour soon threshold in the future, ensureValidToken succeeds
immediately: no oauth call is made and the state is unchanged. -/
theorem C4_fresh_token_early_return (now : Int) (st : ClientState)
    (refreshOutcome authOutcome : Except GoErr TokenUpd)
    (htok : st.accessToken ≠ "") (hexp : now + nsPerHour < st.tokenExpiry) :
    ensureValidToken now st refreshOutcome authOutcome = (st, [], .ok ()) :=
  ensureValidToken_fresh now st refreshOutcome authOutcome htok hexp

/-- Witness for C4 at a concrete fresh state. -/
theorem C4_fresh_token_early_return_witness :
    ensureValidToken 0 freshState downOutcome downOutcome =
      (freshState, [], .ok ()) :=
  C4_fresh_token_early_return 0 freshState downOutcome downOutcome
    (by decide) (by decide)

/-- C8 counterexample -- a state whose token is simultaneously expiring
soon and already past hard expiry, with a refresh token present and a
refresh that would succeed: ensureValidToken performs the full
authentication call and never attempts the refresh. -/
theorem C8_counterexample :
    expiredState.refreshToken ≠ "" ∧
    isTokenExpiringSoon 0 expiredState = true ∧
    isTokenExpired 0 expiredState = true ∧
    (ensureValidToken 0 expiredState okOutcome okOutcome).2.1 =
      [NetCall.authCall] ∧
    NetCall.refreshCall ∉ (ensureValidToken 0 expiredState okOutcome okOutcome).2.1 := by
  decide

/-- C8 (amended) -- with a non-empty refresh token and a token expiring
soon: when the token is NOT yet past hard expiry the refresh is attempted
first and full authentication happens only when the refresh fails; when
the token is already past hard expiry, ensureValidToken goes straight to
full authentication and never attempts a refresh. -/
theorem C8_refresh_precedence (now : Int) (st : ClientState)
    (refreshOutcome authOutcome : Except GoErr TokenUpd)
    (href : st.refreshToken ≠ "") (hsoon : isTokenExpiringSoon now st = true) :
    (isTokenExpired now st = false →
      ((ensureValidToken now st refreshOutcome authOutcome).2.1.head? =
        some NetCall.refreshCall ∧
      (∀ u, refreshOutcome = .ok u →
        ensureValidToken now st refreshOutcome authOutcome =
          ((refreshAccessTokenGo now st refreshOutcome).1, [.refreshCall], .ok ())) ∧
      (∀ e, refreshOutcome = .error e →
        ensureValidToken now st refreshOutcome authOutcome =
          ((authenticateGo now (clearTokens st) authOutcome).1,
            [.refreshCall, .authCall],
            (authenticateGo now (clearTokens st) authOutcome).2)))) ∧
    (isTokenExpired now st = true →
      (ensureValidToken now st refreshOutcome authOutcome).2.1 = [.authCall]) := by
  constructor
  · intro hexp
    have htok : ¬ st.accessToken = "" := by
      intro h
      simp [isTokenExpired, h] at hexp
    have hneed : needsAuthentication now st = true := by
      simp [needsAuthentication, htok, hexp, hsoon, href]
    refine ⟨?_, ?_, ?_⟩
    · cases refreshOutcome with
      | ok u => simp [ensureValidToken, hneed, href, hsoon, hexp, refreshAccessTokenGo]
      | error e => simp [ensureValidToken, hneed, href, hsoon, hexp, refreshAccessTokenGo]
    · intro u hu
      subst hu
      simp [ensureValidToken, hneed, href, hsoon, hexp, refreshAccessTokenGo]
    · intro e he
      subst he
      simp [ensureValidToken, hneed, href, hsoon, hexp, refreshAccessTokenGo]
  · intro hexp
    have hneed : needsAuthentication now st = true := by
      by_cases ha : st.accessToken = "" <;> simp [needsAuthentication, ha, hexp]
    cases authOutcome with
    | ok u =>
      by_cases hu : u.access = "" <;>
        simp [ensureValidToken, hneed, hexp, authenticateGo, hu]
    | error e => simp [ensureValidToken, hneed, hexp, authenticateGo]

/-- Witness for C8 (amended) at a concrete expiring-soon, not-yet-expired
state. -/
theorem C8_refresh_precedence_witness :
    (ensureValidToken 0 staleState downOutcome downOutcome).2.1.head? =
      some NetCall.refreshCall :=
  ((C8_refresh_precedence 0 staleState downOutcome downOutcome
      (by decide) (by decide)).1 (by decide)).1

/-- C3 counterexample -- a 401 from the devices endpoint with a fresh
token: GetDevices returns an error carrying the status but the access
token is still present and the token file still exists, so the claimed
invalidation does not happen. -/
theorem C3_counterexample :
    (GetDevices 0 freshState downOutcome downOutcome 401 []).2 =
      .error (.httpStatus "devices" 401) ∧
    hasAccessToken (GetDevices 0 freshState downOutcome downOutcome 401 []).1 =
      true ∧
    (GetDevices 0 freshState downOutcome downOutcome 401 []).1.tokenFileExists =
      true ∧
    ¬ (hasAccessToken (GetDevices 0 freshState downOutcome downOutcome 401 []).1 =
        false ∧
      (GetDevices 0 freshState downOutcome downOutcome 401 []).1.tokenFileExists =
        false) := by
  exact ⟨rfl, by decide⟩

/-- C3 (amended) -- on a 401 with a fresh token, each of the four client
operations returns an error carrying the status and leaves the in-memory
tokens and the persisted token file untouched; clearing tokens on a 401
happens only in ValidateAuthentication. -/
theorem C3_operations_keep_tokens_on_401 (now : Int) (st : ClientState)
    (refreshOutcome authOutcome : Except GoErr TokenUpd)
    (htok : st.accessToken ≠ "") (hexp : now + nsPerHour < st.tokenExpiry) :
    (∀ body, GetDevices now st refreshOutcome authOutcome 401 body =
      (st, .error (.httpStatus "devices" 401))) ∧
    (∀ bucket body, QueryWaterUsage now st refreshOutcome authOutcome bucket 401 body =
      (st, .error (.httpStatus "query" 401))) ∧
    (∀ body, QueryDailyTotalWaterUsage now st refreshOutcome authOutcome 401 body =
      (st, .error (.httpStatus "query" 401))) ∧
    (∀ fromMe fromToken flowStatus env,
      GetCurrentFlowRate now st refreshOutcome authOutcome 401 fromMe fromToken
          flowStatus env =
        (st, .error (.httpStatus "me" 401))) ∧
    (∀ fromMe fromToken uid env, resolveUserID fromMe fromToken = .ok uid →
      GetCurrentFlowRate now st refreshOutcome authOutcome 200 fromMe fromToken
          401 env =
        (st, .error (.httpStatus "flow_rate" 401))) ∧
    (∀ st2, st2.accessToken ≠ "" → isTokenExpired now st2 = true →
      ValidateAuthentication now st2 401 =
        (clearTokens st2, .error (.msg "authentication token is invalid"))) := by
  have he := ensureValidToken_fresh now st refreshOutcome authOutcome htok hexp
  refine ⟨?_, ?_, ?_, ?_, ?_, ?_⟩
  · intro body
    simp [GetDevices, he]
  · intro bucket body
    simp [QueryWaterUsage, he]
  · intro body
    simp [QueryDailyTotalWaterUsage, he]
  · intro fromMe fromToken flowStatus env
    simp [GetCurrentFlowRate, he]
  · intro fromMe fromToken uid env hres
    simp [GetCurrentFlowRate, he, hres]
  · intro st2 h2 hex2
    simp [ValidateAuthentication, h2, hex2]

/-- Witness for C3 (amended) at a concrete fresh state and empty body. -/
theorem C3_operations_keep_tokens_on_401_witness :
    GetDevices 0 freshState downOutcome downOutcome 401 [] =
      (freshState, .error (.httpStatus "devices" 401)) :=
  (C3_operations_keep_tokens_on_401 0 freshState downOutcome downOutcome
    (by decide) (by decide)).1 []

/-- C10 counterexample -- a 201 response (inside 2xx) whose envelope has
success true and no data: GetCurrentFlowRate reports an error instead of
the claimed zero flow rate, because only status 200 is accepted. -/
theorem C10_counterexample :
    ((200 ≤ 201 ∧ 201 < 300) ∧
    (GetCurrentFlowRate 0 freshState downOutcome downOutcome 200 (some 7) 0 201
        emptyFlowEnvelope).2 =
      .error (.httpStatus "flow_rate" 201)) := by
  constructor
  · decide
  · rfl

/-- C10 (amended) -- when the active-flow endpoint answers with status
exactly 200, the envelope declares success and its data array is empty,
GetCurrentFlowRate succeeds with a zero value in gallons_per_minute. -/
theorem C10_empty_data_zero_flow (now : Int) (st : ClientState)
    (refreshOutcome authOutcome : Except GoErr TokenUpd) (fromMe : Option Int)
    (fromToken : Int) (env : FlowEnvelope) (uid : Int)
    (htok : st.accessToken ≠ "") (hexp : now + nsPerHour < st.tokenExpiry)
    (hres : resolveUserID fromMe fromToken = .ok uid)
    (hsucc : env.success = true) (hdata : env.data = []) :
    GetCurrentFlowRate now st refreshOutcome authOutcome 200 fromMe fromToken
        200 env =
      (st, .ok { value := 0.0, units := "gallons_per_minute" }) := by
  have he := ensureValidToken_fresh now st refreshOutcome authOutcome htok hexp
  simp [GetCurrentFlowRate, he, hres, hsucc, hdata]

/-- Witness for C10 (amended) at a concrete empty envelope. -/
theorem C10_empty_data_zero_flow_witness :
    GetCurrentFlowRate 0 freshState downOutcome downOutcome 200 (some 7) 0 200
        emptyFlowEnvelope =
      (freshState, .ok { value := 0.0, units := "gallons_per_minute" }) :=
  C10_empty_data_zero_flow 0 freshState downOutcome downOutcome (some 7) 0
    emptyFlowEnvelope 7 (by decide) (by decide) rfl rfl rfl

/-- C6 counterexample -- with a fresh token, the trace of
GetCurrentFlowRate holds one Wait followed by two outbound requests, so
its second outbound call is not immediately preceded by a Wait. -/
theorem C6_counterexample :
    GetCurrentFlowRateTrace 0 freshState downOutcome downOutcome 200 (some 7) 0 =
      [Ev.wait, Ev.http "me", Ev.http "query/active"] ∧
    httpImmediatelyAfterWait none
      (GetCurrentFlowRateTrace 0 freshState downOutcome downOutcome 200 (some 7) 0) =
      false := by
  decide

/-- C6 (amended) -- every client operation performs its single
rate-limiter Wait before any outbound request (the trace starts with the
Wait), and GetCurrentFlowRate's /me lookup is not reached when the token
check fails; but the operations after the first outbound request of a
trace are not each preceded by their own Wait. -/
theorem C6_wait_before_any_call (now : Int) (st : ClientState)
    (refreshOutcome authOutcome : Except GoErr TokenUpd) (meStatus : Nat)
    (fromMe : Option Int) (fromToken : Int) :
    (GetDevicesTrace now st refreshOutcome authOutcome).head? = some Ev.wait ∧
    (QueryWaterUsageTrace now st refreshOutcome authOutcome).head? =
      some Ev.wait ∧
    (QueryDailyTotalWaterUsageTrace now st refreshOutcome authOutcome).head? =
      some Ev.wait ∧
    (GetCurrentFlowRateTrace now st refreshOutcome authOutcome meStatus fromMe
        fromToken).head? = some Ev.wait ∧
    (∀ e, (ensureValidToken now st refreshOutcome authOutcome).2.2 = .error e →
      Ev.http "me" ∉ GetCurrentFlowRateTrace now st refreshOutcome authOutcome
        meStatus fromMe fromToken) := by
  refine ⟨rfl, rfl, rfl, rfl, ?_⟩
  intro e he
  simp [GetCurrentFlowRateTrace, he, oauthCallsEv, List.mem_map]

/-- Witness for C6 (amended): with a failing token check, the /me request
never happens. -/
theorem C6_wait_before_any_call_witness :
    Ev.http "me" ∉
      GetCurrentFlowRateTrace 0 expiredState downOutcome downOutcome 200
        (some 7) 0 :=
  (C6_wait_before_any_call 0 expiredState downOutcome downOutcome 200 (some 7)
      0).2.2.2.2 (.msg "connection refused") rfl

/-- C9 counterexample -- a user-supplied scrape interval equal to the
30-second default is not honoured: with five devices GetScrapeInterval
returns the computed three minutes instead. -/
theorem C9_counterexample :
    configScrapeInterval (some (30 * nsPerSecond)) = 30 * nsPerSecond ∧
    GetScrapeInterval (configScrapeInterval (some (30 * nsPerSecond))) 5 =
      3 * nsPerMinute ∧
    (3 : Int) * nsPerMinute ≠ 30 * nsPerSecond := by
  decide

/-- C9 (amended) -- the computed interval is 30 seconds per request,
clamped between two and ten minutes; a user-supplied interval is honoured
exactly when it differs from the 30-second default, and an interval equal
to the default selects the computed one. -/
theorem C9_scrape_interval (deviceCount : Nat) (d : Int) :
    calculateOptimalScrapeInterval deviceCount =
      max (2 * nsPerMinute)
        (min (10 * nsPerMinute) (30 * (1 + (deviceCount : Int)) * nsPerSecond)) ∧
    (d ≠ 30 * nsPerSecond → GetScrapeInterval d deviceCount = d) ∧
    GetScrapeInterval (30 * nsPerSecond) deviceCount =
      calculateOptimalScrapeInterval deviceCount := by
  refine ⟨?_, fun hd => ?_, ?_⟩
  · simp only [calculateOptimalScrapeInterval, nsPerMinute, nsPerSecond]
    split_ifs <;> omega
  · simp [GetScrapeInterval, hd]
  · simp [GetScrapeInterval]

/-- Witness for C9 (amended) at a 45-second user interval. -/
theorem C9_scrape_interval_witness :
    GetScrapeInterval (45 * nsPerSecond) 3 = 45 * nsPerSecond :=
  (C9_scrape_interval 3 (45 * nsPerSecond)).2.1 (by decide)

/-- The retry loop never performs more attempts than it was given, and
only attempts from the given window. -/
theorem authRetryLoop_calls_subset (oracle : Nat → Option GoErr) (m : Nat) :
    ∀ (L : List Nat) (lastErr : GoErr),
      (authRetryLoop oracle m lastErr L).1.length ≤ L.length ∧
      ∀ x ∈ (authRetryLoop oracle m lastErr L).1, x ∈ L := by
  intro L
  induction L with
  | nil =>
    intro lastErr
    simp [authRetryLoop]
  | cons a rest ih =>
    intro lastErr
    cases h : oracle a with
    | none =>
      simp [authRetryLoop, h]
    | some e =>
      by_cases ha : a < m
      · simp only [authRetryLoop, h, ha, if_true]
        refine ⟨Nat.succ_le_succ (ih e).1, ?_⟩
        intro x hx
        rcases List.mem_cons.mp hx with hx | hx
        · exact hx ▸ List.mem_cons_self a rest
        · exact List.mem_cons_of_mem a ((ih e).2 x hx)
      · simp only [authRetryLoop, h, ha, if_false]
        refine ⟨Nat.succ_le_succ (ih e).1, ?_⟩
        intro x hx
        rcases List.mem_cons.mp hx with hx | hx
        · exact hx ▸ List.mem_cons_self a rest
        · exact List.mem_cons_of_mem a ((ih e).2 x hx)

/-- Under an all-failing oracle the retry loop performs every attempt of
its window, sleeps attempt * 5 seconds after each attempt below the
bound, and wraps only the error of the final attempt. -/
theorem authRetryLoop_all_fail (oracle : Nat → Option GoErr)
    (errs : Nat → GoErr) (m : Nat)
    (hfail : ∀ k, oracle k = some (errs k)) :
    ∀ (n s : Nat) (lastErr : GoErr),
      authRetryLoop oracle m lastErr (List.range' s (n + 1)) =
        (List.range' s (n + 1),
         ((List.range' s (n + 1)).filter (fun a => a < m)).map
           (fun a => (a : Int) * 5 * nsPerSecond),
         .error (.retryExhausted m (errs (s + n)))) := by
  intro n
  induction n with
  | zero =>
    intro s lastErr
    by_cases hs : s < m <;>
      simp [authRetryLoop, hfail s, List.range', hs]
  | succ n ih =>
    intro s lastErr
    have hidx : s + (n + 1) = s + 1 + n := by omega
    rw [List.range'_succ s (n + 1) 1, hidx]
    have hstep : ∀ tail : List Nat, authRetryLoop oracle m lastErr (s :: tail) =
        if s < m then
          (s :: (authRetryLoop oracle m (errs s) tail).1,
           ((s : Int) * 5 * nsPerSecond) ::
             (authRetryLoop oracle m (errs s) tail).2.1,
           (authRetryLoop oracle m (errs s) tail).2.2)
        else
          (s :: (authRetryLoop oracle m (errs s) tail).1,
           (authRetryLoop oracle m (errs s) tail).2) := by
      intro tail
      simp only [authRetryLoop, hfail s]
    rw [hstep, ih (s + 1) (errs s)]
    by_cases hs : s < m
    · simp [hs, List.filter_cons]
    · simp [hs, List.filter_cons]

/-- Filtering a one-based attempt window by being below its bound drops
exactly the final attempt. -/
theorem filter_range'_lt : ∀ (n s : Nat),
    (List.range' s (n + 1)).filter (fun a => a < s + n) = List.range' s n := by
  intro n
  induction n with
  | zero =>
    intro s
    simp [List.range']
  | succ n ih =>
    intro s
    rw [List.range'_succ s (n + 1) 1]
    have h1 : s < s + (n + 1) := by omega
    have h2 : (List.range' (s + 1) (n + 1)).filter (fun a => a < s + (n + 1)) =
        List.range' (s + 1) n := by
      have : s + (n + 1) = (s + 1) + n := by omega
      rw [this]
      exact ih (s + 1)
    simp only [List.filter_cons, decide_eq_true_eq, h1, if_true, h2]
    rw [List.range'_succ s n 1]

/-- Every error wraps itself. -/
theorem GoErr.wraps_self (e : GoErr) : e.wraps e = true := by
  unfold GoErr.wraps
  simp

/-- C5 counterexample -- with two attempts failing with distinct errors,
the final error wraps only the second failure: the first failure is not
wrapped, so the aggregate does not wrap all prior failures. -/
theorem C5_counterexample :
    (AuthenticateWithRetry failTwiceOracle 2).1 = [1, 2] ∧
    failTwiceOracle 1 = some (.msg "bad gateway") ∧
    (AuthenticateWithRetry failTwiceOracle 2).2.2 =
      .error (.retryExhausted 2 (.msg "timeout")) ∧
    GoErr.wraps (.retryExhausted 2 (.msg "timeout")) (.msg "timeout") = true ∧
    GoErr.wraps (.retryExhausted 2 (.msg "timeout")) (.msg "bad gateway") = false := by
  refine ⟨rfl, rfl, rfl, by decide, by decide⟩

/-- C5 (amended) -- AuthenticateWithRetry performs at most maxRetries
attempts, all within the bound; when every attempt fails it performs
exactly attempts 1..maxRetries, sleeps attempt * 5 seconds between
consecutive attempts (after each non-final attempt), and returns an error
that wraps the final attempt's failure. -/
theorem C5_retry_bound (oracle : Nat → Option GoErr) (errs : Nat → GoErr)
    (m : Nat) (hm : 1 ≤ m) :
    ((AuthenticateWithRetry oracle m).1.length ≤ m ∧
      ∀ x ∈ (AuthenticateWithRetry oracle m).1, 1 ≤ x ∧ x ≤ m) ∧
    ((∀ k, oracle k = some (errs k)) →
      AuthenticateWithRetry oracle m =
        (List.range' 1 m,
         (List.range' 1 (m - 1)).map (fun a => (a : Int) * 5 * nsPerSecond),
         .error (.retryExhausted m (errs m))) ∧
      GoErr.wraps (.retryExhausted m (errs m)) (errs m) = true) := by
  obtain ⟨n, rfl⟩ : ∃ n, m = n + 1 := ⟨m - 1, by omega⟩
  constructor
  · have h := authRetryLoop_calls_subset oracle (n + 1)
      (List.range' 1 (n + 1)) (.msg "nil error")
    refine ⟨by simpa using h.1, ?_⟩
    intro x hx
    have := h.2 x hx
    have hmem := List.mem_range'_1.mp this
    omega
  · intro hfail
    have h := authRetryLoop_all_fail oracle errs (n + 1) hfail n 1 (.msg "nil error")
    have hfilter : (List.range' 1 (n + 1)).filter (fun a => a < n + 1) =
        List.range' 1 n := by
      have := filter_range'_lt n 1
      rw [Nat.add_comm 1 n] at this
      exact this
    have hlast : 1 + n = n + 1 := by omega
    rw [hfilter, hlast] at h
    refine ⟨by simpa using h, ?_⟩
    unfold GoErr.wraps
    simp only [Bool.or_eq_true, beq_iff_eq]
    exact Or.inr (GoErr.wraps_self (errs (n + 1)))

/-- Witness for C5 (amended) with two failing attempts. -/
theorem C5_retry_bound_witness :
    AuthenticateWithRetry failTwiceOracle 2 =
      (List.range' 1 2,
       (List.range' 1 (2 - 1)).map (fun a => (a : Int) * 5 * nsPerSecond),
       .error (.retryExhausted 2 (failTwiceErrs 2))) :=
  ((C5_retry_bound failTwiceOracle failTwiceErrs 2 (by decide)).2 (fun k => by
    by_cases h : k = 1 <;> simp [failTwiceOracle, failTwiceErrs, h])).1

/-- Chronological order on stamps is transitive. -/
theorem DT.leB_trans {a b c : DT} (h1 : DT.leB a b = true)
    (h2 : DT.leB b c = true) : DT.leB a c = true := by
  simp only [DT.leB, Bool.or_eq_true, Bool.and_eq_true, decide_eq_true_eq] at *
  omega

/-- Dropping the middle element of an ordered chain keeps it ordered. -/
theorem nonDecreasing_drop_mid {a b : DT} {l : List DT}
    (hab : DT.leB a b = true) (h : nonDecreasing (b :: l) = true) :
    nonDecreasing (a :: l) = true := by
  cases l with
  | nil => rfl
  | cons c t =>
    simp only [nonDecreasing, Bool.and_eq_true] at h ⊢
    exact ⟨DT.leB_trans hab h.1, h.2⟩

/-- Counting collections over one more tick. -/
theorem countTrues_cons (d : Nat) (p : DT × Bool) (l : List (DT × Bool)) :
    countTrues d (p :: l) =
      (if p.1.day = d ∧ p.2 = true then 1 else 0) + countTrues d l := by
  simp only [countTrues, List.filter_cons]
  by_cases h : p.1.day = d ∧ p.2 = true
  · simp [h.1, h.2]
    omega
  · have hb : ¬ ((decide (p.1.day = d) && p.2) = true) := by
      simp only [Bool.and_eq_true, decide_eq_true_eq]
      exact h
    simp [hb, h]

/-- After a collection on a strictly later day, a day's remaining budget
cannot grow even counting the collection itself. -/
theorem dayBudget_step_newday {d : Nat} {t0 x : DT} (h : t0.day < x.day) :
    (if x.day = d then 1 else 0) + dayBudget d x ≤ dayBudget d t0 := by
  simp only [dayBudget]
  split_ifs <;> omega

/-- After an evening collection on the same day, a day's remaining budget
cannot grow even counting the collection itself. -/
theorem dayBudget_step_evening {d : Nat} {t0 x : DT} (hday : x.day = t0.day)
    (hhour : 17 ≤ x.hour) (hlt : t0.hour < 12) :
    (if x.day = d then 1 else 0) + dayBudget d x ≤ dayBudget d t0 := by
  simp only [dayBudget]
  split_ifs <;> omega

/-- Starting from a stored stamp t0 and ticking through a non-decreasing
sequence, the collections landing on day d stay within the budget of t0. -/
theorem collect_budget (d : Nat) :
    ∀ (ts : List DT) (t0 : DT), nonDecreasing (t0 :: ts) = true →
      countTrues d (collectRun (some t0) ts) ≤ dayBudget d t0 := by
  intro ts
  induction ts with
  | nil =>
    intro t0 h
    simp [collectRun, countTrues]
  | cons x rest ih =>
    intro t0 h
    have hle : DT.leB t0 x = true := by
      simp only [nonDecreasing, Bool.and_eq_true] at h
      exact h.1
    have hrest : nonDecreasing (x :: rest) = true := by
      simp only [nonDecreasing, Bool.and_eq_true] at h
      exact h.2
    have hrest0 : nonDecreasing (t0 :: rest) = true :=
      nonDecreasing_drop_mid hle hrest
    have hdayle : t0.day ≤ x.day := by
      simp only [DT.leB, Bool.or_eq_true, Bool.and_eq_true,
        decide_eq_true_eq] at hle
      omega
    have hhourle : x.day = t0.day → t0.hour ≤ x.hour := by
      intro hdeq
      simp only [DT.leB, Bool.or_eq_true, Bool.and_eq_true,
        decide_eq_true_eq] at hle
      omega
    simp only [collectRun]
    by_cases hday : x.day = t0.day
    · by_cases hm : 5 ≤ x.hour ∧ x.hour ≤ 7
      · by_cases hlt : t0.hour < 12
        · have hstep : collectStep (some t0) x = (false, some t0) := by
            simp [collectStep, hday, hm, hlt]
          rw [hstep, countTrues_cons]
          simp only [Bool.false_eq_true, and_false, if_false]
          have := ih t0 hrest0
          omega
        · exfalso
          have := hhourle hday
          omega
      · by_cases he : 17 ≤ x.hour ∧ x.hour ≤ 19
        · by_cases hge : 12 ≤ t0.hour
          · have hstep : collectStep (some t0) x = (false, some t0) := by
              simp [collectStep, hday, hm, he, hge]
            rw [hstep, countTrues_cons]
            simp only [Bool.false_eq_true, and_false, if_false]
            have := ih t0 hrest0
            omega
          · have hstep : collectStep (some t0) x = (true, some x) := by
              simp [collectStep, hday, hm, he, hge]
            rw [hstep, countTrues_cons]
            have h1 := ih x hrest
            have h2 := @dayBudget_step_evening d t0 x hday he.1 (by omega)
            simp only [eq_self_iff_true, and_true]
            split_ifs at h2 ⊢ <;> omega
        · have hstep : collectStep (some t0) x = (false, some t0) := by
            simp [collectStep, hday, hm, he]
          rw [hstep, countTrues_cons]
          simp only [Bool.false_eq_true, and_false, if_false]
          have := ih t0 hrest0
          omega
    · have hstep : collectStep (some t0) x = (true, some x) := by
        simp [collectStep, hday]
      rw [hstep, countTrues_cons]
      have h1 := ih x hrest
      have h2 := @dayBudget_step_newday d t0 x (by omega)
      simp only [eq_self_iff_true, and_true]
      split_ifs at h2 ⊢ <;> omega

/-- C2 -- the very first tick of the process always collects, and over
any non-decreasing tick sequence starting on an earlier day, at most two
collections land on any one later calendar day. -/
theorem C2_bulk_collections_bounded (t : DT) (ts : List DT) (d : Nat)
    (hsort : nonDecreasing (t :: ts) = true) (hd : t.day < d) :
    (collectRun none (t :: ts)).head? = some (t, true) ∧
    countTrues d (collectRun none (t :: ts)) ≤ 2 := by
  constructor
  · rfl
  · have hb := collect_budget d ts t hsort
    have hbud : dayBudget d t = 2 := by
      simp [dayBudget, hd]
    have hne : ¬ (t.day = d) := by omega
    simp only [collectRun, collectStep]
    rw [countTrues_cons]
    simp only [hne, false_and, if_false]
    omega

/-- Witness for C2: startup late on day 0, then five ticks on day 1
crossing both windows collect exactly twice on day 1. -/
theorem C2_bulk_collections_bounded_witness :
    countTrues 1 (collectRun none
      [⟨0, 23, 0⟩, ⟨1, 3, 0⟩, ⟨1, 6, 30⟩, ⟨1, 12, 0⟩, ⟨1, 18, 15⟩,
        ⟨1, 19, 0⟩]) ≤ 2 :=
  (C2_bulk_collections_bounded ⟨0, 23, 0⟩
    [⟨1, 3, 0⟩, ⟨1, 6, 30⟩, ⟨1, 12, 0⟩, ⟨1, 18, 15⟩, ⟨1, 19, 0⟩] 1
    (by decide) (by decide)).2

/-- Witness for C7 at the allow-list "A, B" and device id "B". -/
theorem C7_device_filter_witness :
    shouldProcessDevice "A, B" "B" = true :=
  (C7_device_filter.2.1 "A, B" "B" (by decide)).mpr (by decide)
